import Mathlib

/-!
# Verification of `event-bridge-log-shared`

A shallow embedding of the configuration models
(`src/event_bridge_log_shared/utils/config.py`) and the analytics event
models (`src/event_bridge_log_shared/models/events/analytics.py`) of the
`event-bridge-log-shared` library, together with theorems settling the
specification's claims about them.

Conventions of the embedding:
* Python `str` is Lean `String`; `Optional[str]` is `Option String`.
* The process environment is a partial map `ProcEnv := String → Option String`
  (pydantic `BaseSettings` additionally matches variable names
  case-insensitively and reads a `.env` file; we model lookups by the
  declared `env=` names and no `.env` file, which suffices for every claim).
* A pydantic model raising `ValidationError` is modelled by a constructor
  returning `Except String _`; the embedding reports one offending field
  where pydantic collects all of them, which does not change whether
  construction fails.
* Construction-time field resolution follows pydantic `BaseSettings`:
  an explicitly supplied keyword wins, otherwise the bound environment
  variable is consulted, otherwise the declared default is used; `pre`
  validators then run on the resolved raw value (also on the default,
  since the source declares them with `always=True`).
-/

namespace EventBridgeLogShared

/-- The process environment: variable name to value. -/
def ProcEnv : Type := String → Option String

/-- The empty process environment (no variable set). -/
def envEmpty : ProcEnv := fun _ => none

/-- Python's `v or default` for an optional string: `None` and `""` are
falsy, every other string is kept. -/
def pyOr (v : Option String) (d : String) : String :=
  match v with
  | none => d
  | some s => if s = "" then d else s

/-- Python's `str.startswith`, modelled on the underlying character lists. -/
def pyStartsWith (s p : String) : Bool :=
  p.data.isPrefixOf s.data

/-- Python's `str.lower`, modelled character-wise (the configuration
values involved are ASCII). -/
def pyLower (s : String) : String :=
  String.mk (s.data.map Char.toLower)

/-- Python's `str.strip`: drop whitespace from both ends. -/
def pyStrip (s : String) : String :=
  String.mk (((s.data.dropWhile Char.isWhitespace).reverse.dropWhile
    Char.isWhitespace).reverse)

/-- Digits of a nonempty all-digit character list as a number. -/
def digitsToNat? (l : List Char) : Option Nat :=
  if l ≠ [] ∧ l.all Char.isDigit then
    some (l.foldl (fun n c => n * 10 + (c.toNat - 48)) 0)
  else none

/-- Parse an optionally signed decimal integer literal. -/
def parseInt? (l : List Char) : Option Int :=
  match l with
  | '-' :: rest => (digitsToNat? rest).map (fun n => -(n : Int))
  | '+' :: rest => (digitsToNat? rest).map (fun n => (n : Int))
  | _ => (digitsToNat? l).map (fun n => (n : Int))

/-! ## `AWSConfig` (utils/config.py lines 21-96) -/

/-- The validated `AWSConfig` value. Field names and order follow the
source class body. -/
structure AWSConfig where
  environment : String
  region : String
  dev_account_id : Option String
  prod_account_id : Option String
  deployment_role_name : String
  execution_role_name : String
  profile : Option String
  access_key_id : Option String
  secret_access_key : Option String
  session_token : Option String
  eventbridge_bus_name : String
  eventbridge_source : String
  dynamodb_table_name : String
  opensearch_endpoint : Option String
  opensearch_index : String
deriving DecidableEq, Repr

/-- Keyword overrides for `AWSConfig(...)`: `none` means the keyword was
not supplied (so the environment variable, then the default, applies). -/
structure AWSOverrides where
  environment : Option String := none
  region : Option String := none
  dev_account_id : Option String := none
  prod_account_id : Option String := none
  deployment_role_name : Option String := none
  execution_role_name : Option String := none
  profile : Option String := none
  access_key_id : Option String := none
  secret_access_key : Option String := none
  session_token : Option String := none
  eventbridge_bus_name : Option String := none
  eventbridge_source : Option String := none
  dynamodb_table_name : Option String := none
  opensearch_endpoint : Option String := none
  opensearch_index : Option String := none
deriving DecidableEq, Repr

/-- Validator `AWSConfig.add_environment_prefix` (config.py lines 51-57):
prefix a resource name with `f"{environment}-"` unless it already starts
with it. -/
def add_environment_prefix (environment v : String) : String :=
  if pyStartsWith v (environment ++ "-") then v else environment ++ "-" ++ v

/-- Validator `AWSConfig.coalesce_region` (config.py lines 60-64):
a falsy raw value becomes `"us-east-1"`. -/
def coalesce_region (v : Option String) : String :=
  pyOr v "us-east-1"

/-- Validator `AWSConfig.normalize_environment` (config.py lines 66-71):
`(v or 'development').lower()`, coerced to `"development"` when the result
is neither `"development"` nor `"production"`. -/
def normalize_environment (v : Option String) : String :=
  let val := pyLower (pyOr v "development")
  if val = "development" ∨ val = "production" then val else "development"

/-- Raw value of a field under pydantic `BaseSettings` resolution:
supplied keyword, else bound environment variable. -/
def resolve (ov : Option String) (env : ProcEnv) (name : String) : Option String :=
  ov <|> env name

/-- `AWSConfig(**overrides)` under process environment `env`. Every
validator of the class is total, so construction never raises; the
field defaults and `env=` bindings are those of config.py lines 25-49. -/
def mkAWSConfig (ov : AWSOverrides) (env : ProcEnv) : AWSConfig :=
  let environment := normalize_environment (resolve ov.environment env "ENVIRONMENT")
  { environment := environment
    region := coalesce_region (resolve ov.region env "AWS_REGION")
    dev_account_id := resolve ov.dev_account_id env "AWS_DEV_ACCOUNT_ID"
    prod_account_id := resolve ov.prod_account_id env "AWS_PROD_ACCOUNT_ID"
    deployment_role_name :=
      (resolve ov.deployment_role_name env "AWS_DEPLOYMENT_ROLE_NAME").getD
        "EventBridgeLogDeploymentRole"
    execution_role_name :=
      (resolve ov.execution_role_name env "AWS_EXECUTION_ROLE_NAME").getD
        "EventBridgeLogExecutionRole"
    profile := resolve ov.profile env "AWS_PROFILE"
    access_key_id := resolve ov.access_key_id env "AWS_ACCESS_KEY_ID"
    secret_access_key := resolve ov.secret_access_key env "AWS_SECRET_ACCESS_KEY"
    session_token := resolve ov.session_token env "AWS_SESSION_TOKEN"
    eventbridge_bus_name :=
      add_environment_prefix environment
        ((resolve ov.eventbridge_bus_name env "EVENTBRIDGE_BUS_NAME").getD
          "event-bridge-log-bus")
    eventbridge_source :=
      (resolve ov.eventbridge_source env "EVENTBRIDGE_SOURCE").getD "ecommerce.platform"
    dynamodb_table_name :=
      add_environment_prefix environment
        ((resolve ov.dynamodb_table_name env "DYNAMODB_TABLE_NAME").getD
          "event-bridge-log-events")
    opensearch_endpoint := resolve ov.opensearch_endpoint env "OPENSEARCH_ENDPOINT"
    opensearch_index :=
      add_environment_prefix environment
        ((resolve ov.opensearch_index env "OPENSEARCH_INDEX").getD "events") }

/-- Method `AWSConfig.get_account_id` (config.py lines 73-78). -/
def AWSConfig.get_account_id (c : AWSConfig) : Option String :=
  if c.environment = "production" then c.prod_account_id else c.dev_account_id

/-- Method `AWSConfig.get_deployment_role_arn` (config.py lines 80-85);
the `if account_id:` truthiness test treats `None` and `""` as absent. -/
def AWSConfig.get_deployment_role_arn (c : AWSConfig) : Option String :=
  match c.get_account_id with
  | some a =>
      if a = "" then none
      else some ("arn:aws:iam::" ++ a ++ ":role/" ++ c.deployment_role_name)
  | none => none

/-- Method `AWSConfig.get_execution_role_arn` (config.py lines 87-92). -/
def AWSConfig.get_execution_role_arn (c : AWSConfig) : Option String :=
  match c.get_account_id with
  | some a =>
      if a = "" then none
      else some ("arn:aws:iam::" ++ a ++ ":role/" ++ c.execution_role_name)
  | none => none

/-! ## `ApplicationConfig` (utils/config.py lines 99-132) -/

/-- The validated `ApplicationConfig` value. `retry_delay_seconds` is a
Python float holding small decimal constants; its exact numeric value is
modelled as a rational. -/
structure ApplicationConfig where
  app_name : String
  app_version : String
  environment : String
  debug : Bool
  log_level : String
  log_format : String
  batch_size : Int
  max_retries : Int
  retry_delay_seconds : Rat
deriving DecidableEq, Repr

/-- Keyword overrides for `ApplicationConfig(...)`. -/
structure AppOverrides where
  app_name : Option String := none
  app_version : Option String := none
  environment : Option String := none
  debug : Option Bool := none
  log_level : Option String := none
  log_format : Option String := none
  batch_size : Option Int := none
  max_retries : Option Int := none
  retry_delay_seconds : Option Rat := none
deriving DecidableEq, Repr

/-- Validator `ApplicationConfig.validate_environment` (config.py lines
120-125): raises unless `(v or 'development').lower()` is `"development"`
or `"production"`. -/
def validate_environment (v : Option String) : Except String String :=
  let val := pyLower (pyOr v "development")
  if val = "development" ∨ val = "production" then Except.ok val
  else Except.error "environment must be development or production"

/-- The literal `allowed` set of `ApplicationConfig.validate_log_level`
(config.py line 129). -/
def allowedLogLevels : List String :=
  ["CRITICAL", "ERROR", "WARNING", "INFO", "DEBUG",
   "critical", "error", "warning", "info", "debug"]

/-- Validator `ApplicationConfig.validate_log_level` (config.py lines
127-132): exact membership in the ten-string `allowed` set. -/
def validate_log_level (v : String) : Except String String :=
  if v ∈ allowedLogLevels then Except.ok v else Except.error "invalid log level"

/-- pydantic's lenient bool parsing of an environment string (used for the
`DEBUG` variable). -/
def pyParseBool (s : String) : Except String Bool :=
  let t := pyStrip (pyLower s)
  if t ∈ ["1", "on", "t", "true", "y", "yes"] then Except.ok true
  else if t ∈ ["0", "off", "f", "false", "n", "no"] then Except.ok false
  else Except.error "value could not be parsed to a boolean"

/-- pydantic's int parsing of an environment string. -/
def pyParseInt (s : String) : Except String Int :=
  match parseInt? (pyStrip s).data with
  | some n => Except.ok n
  | none => Except.error "value is not a valid integer"

/-- pydantic's float parsing of an environment string, restricted to plain
decimal literals `[-]digits[.digits]` (the only shapes the library's
callers use); the value is kept exact as a rational. -/
def pyParseFloat (s : String) : Except String Rat :=
  match ((pyStrip s).data.splitOn '.') with
  | [w] =>
      match parseInt? w with
      | some n => Except.ok (n : Rat)
      | none => Except.error "value is not a valid float"
  | [w, f] =>
      match parseInt? w, digitsToNat? f with
      | some n, some fr =>
          let scale : Nat := f.length
          let sign : Rat := if n < 0 ∨ w.take 1 = ['-'] then -1 else 1
          Except.ok ((n : Rat) + sign * (fr : Rat) / ((10 : Rat) ^ scale))
      | _, _ => Except.error "value is not a valid float"
  | _ => Except.error "value is not a valid float"

/-- Resolve a non-string field: supplied keyword wins, else the bound
environment variable is parsed, else the default. -/
def resolveParsed {α : Type} (ov : Option α) (env : ProcEnv) (name : String)
    (parse : String → Except String α) (d : α) : Except String α :=
  match ov with
  | some a => Except.ok a
  | none =>
      match env name with
      | some s => parse s
      | none => Except.ok d

/-- `ApplicationConfig(**overrides)` under process environment `env`
(config.py lines 99-132): field resolution as in `BaseSettings`, then the
two `pre, always` validators; `log_level`'s validator also runs on the
default `"INFO"` when the field is absent. -/
def mkApplicationConfig (ov : AppOverrides) (env : ProcEnv) :
    Except String ApplicationConfig := do
  let app_name := (resolve ov.app_name env "APP_NAME").getD "Event Bridge Log Producer"
  let app_version := (resolve ov.app_version env "APP_VERSION").getD "1.0.0"
  let environment ← validate_environment (resolve ov.environment env "ENVIRONMENT")
  let debug ← resolveParsed ov.debug env "DEBUG" pyParseBool true
  let log_level ← validate_log_level ((resolve ov.log_level env "LOG_LEVEL").getD "INFO")
  let log_format := (resolve ov.log_format env "LOG_FORMAT").getD "json"
  let batch_size ← resolveParsed ov.batch_size env "PRODUCER_BATCH_SIZE" pyParseInt 10
  let max_retries ← resolveParsed ov.max_retries env "PRODUCER_MAX_RETRIES" pyParseInt 3
  let retry_delay_seconds ←
    resolveParsed ov.retry_delay_seconds env "PRODUCER_RETRY_DELAY" pyParseFloat 1
  return { app_name, app_version, environment, debug, log_level, log_format,
           batch_size, max_retries, retry_delay_seconds }

/-! ## `Settings` and the free factory functions (utils/config.py lines 135-159) -/

/-- `Settings` aggregates one `AWSConfig` and one `ApplicationConfig`. -/
structure Settings where
  aws : AWSConfig
  app : ApplicationConfig
deriving DecidableEq, Repr

/-- Free function `build_role_arn` (config.py lines 146-148). -/
def build_role_arn (account_id role_name : String) : String :=
  "arn:aws:iam::" ++ account_id ++ ":role/" ++ role_name

/-- Factory `build_settings` (config.py lines 151-159): constructs
`AWSConfig(**(aws or {}))` and `ApplicationConfig(**(app or {}))` — both
of which, being `BaseSettings`, still consult the process environment for
any field not supplied — and aggregates them. -/
def build_settings (aws : Option AWSOverrides) (app : Option AppOverrides)
    (env : ProcEnv) : Except String Settings := do
  let aws_cfg := mkAWSConfig (aws.getD {}) env
  let app_cfg ← mkApplicationConfig (app.getD {}) env
  return { aws := aws_cfg, app := app_cfg }

/-! ## Event models

`models/events/analytics.py` is in the repository's sources; its base
class `BaseEvent` and the enumeration `EventType` live in
`models/events/base.py`, which is absent from the sources (only its tests
and the spec describe it), so those parts are modelled from the spec.
-/

/-- Modelled from the spec: the closed `EventType` enumeration of dotted
`"domain.action"` strings declared in `models/events/base.py` (absent from
the sources; the member names are those imported by
`models/events/__init__.py` and the tests). -/
inductive EventType where
  | user_registered | user_login | user_logout | user_profile_updated | user_deleted
  | product_viewed | product_searched
  | cart_item_added | cart_item_removed | cart_abandoned
  | order_created | order_paid | order_shipped | order_delivered
  | inventory_low_stock | inventory_out_of_stock | inventory_restocked
  | payment_processed | payment_failed | payment_refunded
  | review_submitted | user_session | page_view
deriving DecidableEq, Repr

/-- The dotted string value of each `EventType` member. -/
def eventTypeStr : EventType → String
  | .user_registered => "user.registered"
  | .user_login => "user.login"
  | .user_logout => "user.logout"
  | .user_profile_updated => "user.profile_updated"
  | .user_deleted => "user.deleted"
  | .product_viewed => "product.viewed"
  | .product_searched => "product.searched"
  | .cart_item_added => "cart.item_added"
  | .cart_item_removed => "cart.item_removed"
  | .cart_abandoned => "cart.abandoned"
  | .order_created => "order.created"
  | .order_paid => "order.paid"
  | .order_shipped => "order.shipped"
  | .order_delivered => "order.delivered"
  | .inventory_low_stock => "inventory.low_stock"
  | .inventory_out_of_stock => "inventory.out_of_stock"
  | .inventory_restocked => "inventory.restocked"
  | .payment_processed => "payment.processed"
  | .payment_failed => "payment.failed"
  | .payment_refunded => "payment.refunded"
  | .review_submitted => "review.submitted"
  | .user_session => "user.session"
  | .page_view => "page.view"

/-- Parse a dotted string back into the enumeration (deserialization side). -/
def eventTypeOfStr (s : String) : Option EventType :=
  (([.user_registered, .user_login, .user_logout, .user_profile_updated,
     .user_deleted, .product_viewed, .product_searched, .cart_item_added,
     .cart_item_removed, .cart_abandoned, .order_created, .order_paid,
     .order_shipped, .order_delivered, .inventory_low_stock,
     .inventory_out_of_stock, .inventory_restocked, .payment_processed,
     .payment_failed, .payment_refunded, .review_submitted, .user_session,
     .page_view] : List EventType).find? (fun t => eventTypeStr t = s))

/-- Exact decimal number, `mantissa · 10^(-scale)`: the model of Python's
`decimal.Decimal` used for currency fields. -/
structure Dec where
  mantissa : Int
  scale : Nat
deriving DecidableEq, Repr

/-- The rational value denoted by a decimal. -/
def Dec.toRat (d : Dec) : Rat :=
  (d.mantissa : Rat) / ((10 : Rat) ^ d.scale)

/-- `Decimal(int)`: exact. -/
def Dec.ofInt (n : Int) : Dec := ⟨n, 0⟩

/-- `Decimal(float)`: a binary float whose exact value is `m · 2^e` has
the exact decimal expansion `m·2^e` (for `e ≥ 0`) or `m·5^{-e} · 10^{e}`
(for `e < 0`). -/
def Dec.ofFloat (m : Int) : Int → Dec
  | .ofNat k => ⟨m * 2 ^ k, 0⟩
  | .negSucc k => ⟨m * 5 ^ (k + 1), k + 1⟩

/-- A metadata value (the open `Dict[str, Any]` on events is modelled with
first-order values, the shapes the tests exercise). -/
inductive MValue where
  | mstr (s : String)
  | mint (n : Int)
  | mbool (b : Bool)
  | mnull
deriving DecidableEq, Repr

/-- A value of the canonical mapping representation (`model_dump`, Python
mode): scalars are kept as typed objects, not stringified. -/
inductive Value where
  | vstr (s : String)
  | vint (n : Int)
  | vbool (b : Bool)
  | vuuid (u : Nat)
  | vtime (t : Int)
  | vdec (d : Dec)
  | vdict (l : List (String × MValue))
  | vnull
deriving DecidableEq, Repr

/-- Serialize an optional string field (`None` becomes the null value). -/
def vOptStr : Option String → Value
  | none => .vnull
  | some s => .vstr s

/-- Serialize an optional UUID field. -/
def vOptUuid : Option Nat → Value
  | none => .vnull
  | some u => .vuuid u

/-- Serialize the optional metadata map. -/
def vOptDict : Option (List (String × MValue)) → Value
  | none => .vnull
  | some l => .vdict l

/-- Association lookup in a serialized mapping. -/
def getV (d : List (String × Value)) (k : String) : Option Value :=
  match d with
  | [] => none
  | (k', v) :: rest => if k' = k then some v else getV rest k

/-- Read back a required string field. -/
def asStr : Option Value → Option String
  | some (.vstr s) => some s
  | _ => none

/-- Read back an optional string field. -/
def asOptStr : Option Value → Option (Option String)
  | some (.vstr s) => some (some s)
  | some .vnull => some none
  | _ => none

/-- Read back a required integer field. -/
def asInt : Option Value → Option Int
  | some (.vint n) => some n
  | _ => none

/-- Read back a required boolean field. -/
def asBool : Option Value → Option Bool
  | some (.vbool b) => some b
  | _ => none

/-- Read back a required UUID field. -/
def asUuid : Option Value → Option Nat
  | some (.vuuid u) => some u
  | _ => none

/-- Read back an optional UUID field. -/
def asOptUuid : Option Value → Option (Option Nat)
  | some (.vuuid u) => some (some u)
  | some .vnull => some none
  | _ => none

/-- Read back a required timestamp field. -/
def asTime : Option Value → Option Int
  | some (.vtime t) => some t
  | _ => none

/-- Read back a required decimal field. -/
def asDec : Option Value → Option Dec
  | some (.vdec d) => some d
  | _ => none

/-- Read back the optional metadata map. -/
def asOptDict : Option Value → Option (Option (List (String × MValue)))
  | some (.vdict l) => some (some l)
  | some .vnull => some none
  | _ => none

/-- Read back an event-type field (membership in the closed enumeration is
checked, any member is accepted). -/
def asEventType (v : Option Value) : Option EventType :=
  match v with
  | some (.vstr s) => eventTypeOfStr s
  | _ => none

/-! ### `ReviewSubmittedEvent` (analytics.py lines 16-61)

The subtype's own fields are translated from `analytics.py`; the base
fields (`event_id`, `timestamp`, `source`, `environment`,
`correlation_id`, `metadata`) are modelled from the spec, `base.py` being
absent from the sources. A UUID is its 128-bit integer, a timestamp its
microseconds-since-epoch count (microsecond granularity is what the spec
requires to survive the round trip). -/

structure ReviewSubmittedEvent where
  event_id : Nat
  event_type : EventType
  timestamp : Int
  source : String
  environment : String
  correlation_id : Option Nat
  metadata : Option (List (String × MValue))
  review_id : String
  product_id : String
  product_name : String
  rating : Int
  title : Option String
  content : String
  reviewer_name : String
  verified_purchase : Bool
  review_source : String
  helpful_votes : Int
  is_approved : Bool
  moderation_notes : Option String
deriving DecidableEq, Repr

/-- The caller-supplied field mapping for `ReviewSubmittedEvent(...)`.
Defaulted fields are optional; `event_id` and `timestamp` stand for the
supplied-or-freshly-generated identity values (generation itself is an
effect outside the pure model). -/
structure ReviewFields where
  event_id : Nat
  event_type : Option EventType := none
  timestamp : Int
  source : String
  environment : Option String := none
  correlation_id : Option Nat := none
  metadata : Option (List (String × MValue)) := none
  review_id : String
  product_id : String
  product_name : String
  rating : Int
  title : Option String := none
  content : String
  reviewer_name : String
  verified_purchase : Bool := false
  review_source : String
  helpful_votes : Int := 0
  is_approved : Bool := true
  moderation_notes : Option String := none
deriving DecidableEq, Repr

/-- Construction `ReviewSubmittedEvent(**fields)`: `event_type` defaults
to `EventType.REVIEW_SUBMITTED` (analytics.py line 19) but a supplied
member of the enumeration is stored as given; the base `environment`
validator (modelled from the spec) lower-cases and falls back to
`"development"`. -/
def mkReviewSubmittedEvent (f : ReviewFields) : ReviewSubmittedEvent :=
  { event_id := f.event_id
    event_type := f.event_type.getD .review_submitted
    timestamp := f.timestamp
    source := f.source
    environment := normalize_environment f.environment
    correlation_id := f.correlation_id
    metadata := f.metadata
    review_id := f.review_id
    product_id := f.product_id
    product_name := f.product_name
    rating := f.rating
    title := f.title
    content := f.content
    reviewer_name := f.reviewer_name
    verified_purchase := f.verified_purchase
    review_source := f.review_source
    helpful_votes := f.helpful_votes
    is_approved := f.is_approved
    moderation_notes := f.moderation_notes }

/-- `model_dump()`: the canonical ordered mapping, keys in field
declaration order (base fields first), optional absent fields as null. -/
def ReviewSubmittedEvent.to_dict (e : ReviewSubmittedEvent) : List (String × Value) :=
  [("event_id", .vuuid e.event_id),
   ("event_type", .vstr (eventTypeStr e.event_type)),
   ("timestamp", .vtime e.timestamp),
   ("source", .vstr e.source),
   ("environment", .vstr e.environment),
   ("correlation_id", vOptUuid e.correlation_id),
   ("metadata", vOptDict e.metadata),
   ("review_id", .vstr e.review_id),
   ("product_id", .vstr e.product_id),
   ("product_name", .vstr e.product_name),
   ("rating", .vint e.rating),
   ("title", vOptStr e.title),
   ("content", .vstr e.content),
   ("reviewer_name", .vstr e.reviewer_name),
   ("verified_purchase", .vbool e.verified_purchase),
   ("review_source", .vstr e.review_source),
   ("helpful_votes", .vint e.helpful_votes),
   ("is_approved", .vbool e.is_approved),
   ("moderation_notes", vOptStr e.moderation_notes)]

/-- The base-class fields read back from a serialized mapping. The
`environment` validator (modelled from the spec) reruns on
deserialization, so the stored value is renormalized; `event_type` must
be a member of the enumeration (any member is accepted). -/
structure BaseParsed where
  event_id : Nat
  event_type : EventType
  timestamp : Int
  source : String
  environment : String
  correlation_id : Option Nat
  metadata : Option (List (String × MValue))
deriving DecidableEq, Repr

/-- Read the seven `BaseEvent` fields back from a serialized mapping. -/
def parseBase (d : List (String × Value)) : Option BaseParsed := do
  let event_id ← asUuid (getV d "event_id")
  let event_type ← asEventType (getV d "event_type")
  let timestamp ← asTime (getV d "timestamp")
  let source ← asStr (getV d "source")
  let environment0 ← asStr (getV d "environment")
  let correlation_id ← asOptUuid (getV d "correlation_id")
  let metadata ← asOptDict (getV d "metadata")
  return { event_id, event_type, timestamp, source,
           environment := normalize_environment (some environment0),
           correlation_id, metadata }

/-- Read back the first half of the review-specific fields. -/
def parseReviewA (d : List (String × Value)) :
    Option (String × String × String × Int × Option String × String) := do
  let review_id ← asStr (getV d "review_id")
  let product_id ← asStr (getV d "product_id")
  let product_name ← asStr (getV d "product_name")
  let rating ← asInt (getV d "rating")
  let title ← asOptStr (getV d "title")
  let content ← asStr (getV d "content")
  return (review_id, product_id, product_name, rating, title, content)

/-- Read back the second half of the review-specific fields. -/
def parseReviewB (d : List (String × Value)) :
    Option (String × Bool × String × Int × Bool × Option String) := do
  let reviewer_name ← asStr (getV d "reviewer_name")
  let verified_purchase ← asBool (getV d "verified_purchase")
  let review_source ← asStr (getV d "review_source")
  let helpful_votes ← asInt (getV d "helpful_votes")
  let is_approved ← asBool (getV d "is_approved")
  let moderation_notes ← asOptStr (getV d "moderation_notes")
  return (reviewer_name, verified_purchase, review_source, helpful_votes,
          is_approved, moderation_notes)

/-- `ReviewSubmittedEvent.model_validate(dict)` on a serialized mapping:
every field is read back by key (order and extra keys are irrelevant) and
the construction-time validators rerun. -/
def ReviewSubmittedEvent.from_dict (d : List (String × Value)) :
    Option ReviewSubmittedEvent := do
  let b ← parseBase d
  let (review_id, product_id, product_name, rating, title, content) ← parseReviewA d
  let (reviewer_name, verified_purchase, review_source, helpful_votes,
       is_approved, moderation_notes) ← parseReviewB d
  return { event_id := b.event_id, event_type := b.event_type,
           timestamp := b.timestamp, source := b.source,
           environment := b.environment, correlation_id := b.correlation_id,
           metadata := b.metadata, review_id, product_id, product_name,
           rating, title, content, reviewer_name, verified_purchase,
           review_source, helpful_votes, is_approved, moderation_notes }

/-! ### `PaymentProcessedEvent`

Modelled from the spec: `models/events/payment.py` is absent from the
sources; §3 of the spec declares `PaymentProcessedEvent` as `BaseEvent`
plus `payment_id`, `payment_amount` (decimal currency amount) and
`processor`, with `event_type` fixed (as a default) to
`payment.processed`. It is the event with a decimal currency field used
to check exact decimal round-tripping. -/

structure PaymentProcessedEvent where
  event_id : Nat
  event_type : EventType
  timestamp : Int
  source : String
  environment : String
  correlation_id : Option Nat
  metadata : Option (List (String × MValue))
  payment_id : String
  payment_amount : Dec
  processor : String
deriving DecidableEq, Repr

/-- The caller-supplied field mapping for `PaymentProcessedEvent(...)`. -/
structure PaymentFields where
  event_id : Nat
  event_type : Option EventType := none
  timestamp : Int
  source : String
  environment : Option String := none
  correlation_id : Option Nat := none
  metadata : Option (List (String × MValue)) := none
  payment_id : String
  payment_amount : Dec
  processor : String
deriving DecidableEq, Repr

/-- Construction `PaymentProcessedEvent(**fields)` (modelled from the
spec, like the class itself): the decimal amount is stored exactly as
supplied, never as a binary float. -/
def mkPaymentProcessedEvent (f : PaymentFields) : PaymentProcessedEvent :=
  { event_id := f.event_id
    event_type := f.event_type.getD .payment_processed
    timestamp := f.timestamp
    source := f.source
    environment := normalize_environment f.environment
    correlation_id := f.correlation_id
    metadata := f.metadata
    payment_id := f.payment_id
    payment_amount := f.payment_amount
    processor := f.processor }

/-- `model_dump()` for the payment event: decimals stay exact decimal
values in the mapping. -/
def PaymentProcessedEvent.to_dict (e : PaymentProcessedEvent) : List (String × Value) :=
  [("event_id", .vuuid e.event_id),
   ("event_type", .vstr (eventTypeStr e.event_type)),
   ("timestamp", .vtime e.timestamp),
   ("source", .vstr e.source),
   ("environment", .vstr e.environment),
   ("correlation_id", vOptUuid e.correlation_id),
   ("metadata", vOptDict e.metadata),
   ("payment_id", .vstr e.payment_id),
   ("payment_amount", .vdec e.payment_amount),
   ("processor", .vstr e.processor)]

/-- `PaymentProcessedEvent.model_validate(dict)` on a serialized mapping. -/
def PaymentProcessedEvent.from_dict (d : List (String × Value)) :
    Option PaymentProcessedEvent := do
  let b ← parseBase d
  let payment_id ← asStr (getV d "payment_id")
  let payment_amount ← asDec (getV d "payment_amount")
  let processor ← asStr (getV d "processor")
  return { event_id := b.event_id, event_type := b.event_type,
           timestamp := b.timestamp, source := b.source,
           environment := b.environment, correlation_id := b.correlation_id,
           metadata := b.metadata, payment_id, payment_amount, processor }

/-! ### `UserSessionEvent` and `PageViewEvent` (analytics.py lines 64-181)

Their own fields are translated from `analytics.py`; datetimes are
microsecond counts and Python floats are carried as exact rationals (the
fields only store them). Only construction is embedded for these two
subtypes. -/

structure UserSessionEvent where
  event_id : Nat
  event_type : EventType
  timestamp : Int
  source : String
  environment : String
  correlation_id : Option Nat
  metadata : Option (List (String × MValue))
  session_id : String
  session_start : Int
  session_end : Option Int
  session_duration : Option Int
  user_agent : String
  ip_address : String
  device_type : String
  browser : String
  operating_system : String
  country : Option String
  region : Option String
  city : Option String
  page_views : Int
  actions_performed : Int
  conversion_events : List String
  time_on_site : Option Int
  bounce_rate : Option Rat
deriving DecidableEq, Repr

/-- The caller-supplied field mapping for `UserSessionEvent(...)`. -/
structure SessionFields where
  event_id : Nat
  event_type : Option EventType := none
  timestamp : Int
  source : String
  environment : Option String := none
  correlation_id : Option Nat := none
  metadata : Option (List (String × MValue)) := none
  session_id : String
  session_start : Int
  session_end : Option Int := none
  session_duration : Option Int := none
  user_agent : String
  ip_address : String
  device_type : String
  browser : String
  operating_system : String
  country : Option String := none
  region : Option String := none
  city : Option String := none
  page_views : Int := 0
  actions_performed : Int := 0
  conversion_events : List String := []
  time_on_site : Option Int := none
  bounce_rate : Option Rat := none
deriving DecidableEq, Repr

/-- Construction `UserSessionEvent(**fields)`: `event_type` defaults to
`EventType.USER_SESSION` (analytics.py line 67) but a supplied member is
stored as given. -/
def mkUserSessionEvent (f : SessionFields) : UserSessionEvent :=
  { event_id := f.event_id
    event_type := f.event_type.getD .user_session
    timestamp := f.timestamp
    source := f.source
    environment := normalize_environment f.environment
    correlation_id := f.correlation_id
    metadata := f.metadata
    session_id := f.session_id
    session_start := f.session_start
    session_end := f.session_end
    session_duration := f.session_duration
    user_agent := f.user_agent
    ip_address := f.ip_address
    device_type := f.device_type
    browser := f.browser
    operating_system := f.operating_system
    country := f.country
    region := f.region
    city := f.city
    page_views := f.page_views
    actions_performed := f.actions_performed
    conversion_events := f.conversion_events
    time_on_site := f.time_on_site
    bounce_rate := f.bounce_rate }

structure PageViewEvent where
  event_id : Nat
  event_type : EventType
  timestamp : Int
  source : String
  environment : String
  correlation_id : Option Nat
  metadata : Option (List (String × MValue))
  page_url : String
  page_title : String
  page_category : String
  referrer_url : Option String
  referrer_domain : Option String
  search_query : Option String
  time_on_page : Option Int
  scroll_depth : Option Rat
  page_load_time : Option Int
  page_size : Option Int
  content_type : String
  content_id : Option String
  session_id : String
  page_sequence : Int
  is_bounce : Bool
  exit_page : Bool
deriving DecidableEq, Repr

/-- The caller-supplied field mapping for `PageViewEvent(...)`. -/
structure PageViewFields where
  event_id : Nat
  event_type : Option EventType := none
  timestamp : Int
  source : String
  environment : Option String := none
  correlation_id : Option Nat := none
  metadata : Option (List (String × MValue)) := none
  page_url : String
  page_title : String
  page_category : String
  referrer_url : Option String := none
  referrer_domain : Option String := none
  search_query : Option String := none
  time_on_page : Option Int := none
  scroll_depth : Option Rat := none
  page_load_time : Option Int := none
  page_size : Option Int := none
  content_type : String
  content_id : Option String := none
  session_id : String
  page_sequence : Int
  is_bounce : Bool := false
  exit_page : Bool := false
deriving DecidableEq, Repr

/-- Construction `PageViewEvent(**fields)`: `event_type` defaults to
`EventType.PAGE_VIEW` (analytics.py line 126) but a supplied member is
stored as given. -/
def mkPageViewEvent (f : PageViewFields) : PageViewEvent :=
  { event_id := f.event_id
    event_type := f.event_type.getD .page_view
    timestamp := f.timestamp
    source := f.source
    environment := normalize_environment f.environment
    correlation_id := f.correlation_id
    metadata := f.metadata
    page_url := f.page_url
    page_title := f.page_title
    page_category := f.page_category
    referrer_url := f.referrer_url
    referrer_domain := f.referrer_domain
    search_query := f.search_query
    time_on_page := f.time_on_page
    scroll_depth := f.scroll_depth
    page_load_time := f.page_load_time
    page_size := f.page_size
    content_type := f.content_type
    content_id := f.content_id
    session_id := f.session_id
    page_sequence := f.page_sequence
    is_bounce := f.is_bounce
    exit_page := f.exit_page }

/-! ### Auxiliary definitions for the theorems -/

/-- Whether a pydantic construction succeeded (no `ValidationError`). -/
def isOkB {α : Type} : Except String α → Bool
  | .ok _ => true
  | .error _ => false

/-- A process environment with only `ENVIRONMENT=production` set. -/
def envProdOnly : ProcEnv :=
  fun n => if n = "ENVIRONMENT" then some "production" else none

/-- Modelled from the spec: the free function `normalize_env` of
`utils/config.py` declared in §4.2 of the spec (absent from the sources;
its tests import it from that module). The spec fixes its value on
`None`, `""`, `"development"`, `"dev"`, `"production"` and `"prod"`; the
remaining inputs are unspecified and follow the module's lenient
default-to-dev convention. -/
def normalize_env (v : Option String) : String :=
  match v with
  | none => "dev"
  | some s =>
      if s = "" ∨ s = "development" ∨ s = "dev" then "dev"
      else if s = "production" ∨ s = "prod" then "prod"
      else "dev"

/-! ## Helper lemmas -/

/-- Renormalizing an already-normalized environment value is the identity:
the base validator is stable under deserialization. -/
theorem norm_env_renorm (v : Option String) :
    normalize_environment (some (normalize_environment v)) = normalize_environment v := by
  unfold normalize_environment
  by_cases h : (pyLower (pyOr v "development") = "development" ∨
      pyLower (pyOr v "development") = "production")
  · rw [if_pos h]
    rcases h with h | h <;> rw [h] <;> decide
  · rw [if_neg h]
    decide

/-- Normalization always lands in the two-element environment set. -/
theorem norm_env_mem (v : Option String) :
    normalize_environment v = "development" ∨ normalize_environment v = "production" := by
  unfold normalize_environment
  by_cases h : (pyLower (pyOr v "development") = "development" ∨
      pyLower (pyOr v "development") = "production")
  · rw [if_pos h]; exact h
  · rw [if_neg h]; exact Or.inl rfl

/-- Parsing the dotted string of a member recovers the member. -/
theorem eventTypeOfStr_eventTypeStr (t : EventType) :
    eventTypeOfStr (eventTypeStr t) = some t := by
  cases t <;> rfl

/-- Reading back a serialized optional string field. -/
theorem asOptStr_vOptStr (o : Option String) : asOptStr (some (vOptStr o)) = some o := by
  cases o <;> rfl

/-- Reading back a serialized optional UUID field. -/
theorem asOptUuid_vOptUuid (o : Option Nat) : asOptUuid (some (vOptUuid o)) = some o := by
  cases o <;> rfl

/-- Reading back the serialized optional metadata map. -/
theorem asOptDict_vOptDict (o : Option (List (String × MValue))) :
    asOptDict (some (vOptDict o)) = some o := by
  cases o <;> rfl

/-- Round trip of a constructed review event through the canonical
mapping representation. -/
theorem review_round_trip (f : ReviewFields) :
    ReviewSubmittedEvent.from_dict (ReviewSubmittedEvent.to_dict (mkReviewSubmittedEvent f)) =
      some (mkReviewSubmittedEvent f) := by
  simp only [ReviewSubmittedEvent.from_dict, ReviewSubmittedEvent.to_dict,
    mkReviewSubmittedEvent, parseBase, parseReviewA, parseReviewB, getV,
    asStr, asInt, asBool, asUuid, asTime, asEventType,
    asOptStr_vOptStr, asOptUuid_vOptUuid, asOptDict_vOptDict,
    eventTypeOfStr_eventTypeStr, norm_env_renorm,
    Option.bind_eq_bind, Option.some_bind]
  simp [asOptStr_vOptStr, asOptUuid_vOptUuid, asOptDict_vOptDict,
    eventTypeOfStr_eventTypeStr, norm_env_renorm]

/-- Round trip of a constructed payment event through the canonical
mapping representation, its exact decimal amount included. -/
theorem payment_round_trip (f : PaymentFields) :
    PaymentProcessedEvent.from_dict (PaymentProcessedEvent.to_dict (mkPaymentProcessedEvent f)) =
      some (mkPaymentProcessedEvent f) := by
  simp only [PaymentProcessedEvent.from_dict, PaymentProcessedEvent.to_dict,
    mkPaymentProcessedEvent, parseBase, getV,
    asStr, asInt, asBool, asUuid, asTime, asDec, asEventType,
    asOptStr_vOptStr, asOptUuid_vOptUuid, asOptDict_vOptDict,
    eventTypeOfStr_eventTypeStr, norm_env_renorm,
    Option.bind_eq_bind, Option.some_bind]
  simp [asOptUuid_vOptUuid, asOptDict_vOptDict, eventTypeOfStr_eventTypeStr,
    norm_env_renorm]

/-- Concatenation on the character-list view of strings. -/
theorem string_data_append (p t : String) : (p ++ t).data = p.data ++ t.data := rfl

/-- A list is a Boolean prefix of itself followed by anything. -/
theorem isPrefixOf_append_self (l t : List Char) : l.isPrefixOf (l ++ t) = true := by
  induction l with
  | nil => simp [List.isPrefixOf]
  | cons a as ih => simp [List.isPrefixOf, ih]

/-- A string starts with any of its leading segments. -/
theorem pyStartsWith_append (p t : String) : pyStartsWith (p ++ t) p = true := by
  simp [pyStartsWith, string_data_append, isPrefixOf_append_self]

/-- The prefixing validator always yields a value carrying the
environment prefix. -/
theorem add_environment_prefix_startsWith (e v : String) :
    pyStartsWith ( add_environment_prefix e v) (e ++ "-") = true := by
  cases hsw : pyStartsWith v (e ++ "-") <;>
    simp [ add_environment_prefix, hsw, pyStartsWith_append]

/-! ## Claims -/

/-- C1: the claim says `build_settings` reads no environment variable, so
any two process environments yield equal `Settings`, omitted fields all at
built-in defaults. The construction in the source goes through pydantic
`BaseSettings`, which consults the environment for every field not
supplied: under `ENVIRONMENT=production` the overridless call yields
`aws.environment = "production"`, under an empty environment
`"development"`, and the two `Settings` values differ — the code
contradicts the claim (and its own docstring) at this input. -/
theorem build_settings_reads_process_env :
    build_settings none none envProdOnly ≠ build_settings none none envEmpty ∧
    (mkAWSConfig {} envProdOnly).environment = "production" ∧
    (mkAWSConfig {} envEmpty).environment = "development" := by
  refine ⟨?_, rfl, rfl⟩
  intro h
  have hP : (build_settings none none envProdOnly).map (fun s => s.aws.environment) =
      Except.ok "production" := rfl
  have hE : (build_settings none none envEmpty).map (fun s => s.aws.environment) =
      Except.ok "development" := rfl
  rw [h, hE] at hP
  exact absurd (Except.ok.inj hP) (by decide)

/-- C2: for every valid field mapping, constructing an event, serializing
it to the canonical mapping and reconstructing it yields a value equal to
the original in every field — `event_id`, microsecond-exact `timestamp`
and exact decimal currency fields included (shown for the in-source
`ReviewSubmittedEvent` and the spec-modelled decimal-carrying
`PaymentProcessedEvent`). -/
theorem event_serialization_round_trip :
    (∀ f : ReviewFields,
      ReviewSubmittedEvent.from_dict (ReviewSubmittedEvent.to_dict (mkReviewSubmittedEvent f)) =
        some (mkReviewSubmittedEvent f))
  ∧ (∀ f : PaymentFields,
      PaymentProcessedEvent.from_dict (PaymentProcessedEvent.to_dict (mkPaymentProcessedEvent f)) =
        some (mkPaymentProcessedEvent f)) :=
  ⟨review_round_trip, payment_round_trip⟩

/-- C3 counterexample: the claim says every casing of a valid severity
(e.g. `"Info"`) is accepted, but the source's `allowed` set holds only the
all-upper and all-lower spellings, so `ApplicationConfig(log_level="Info")`
raises even though `"Info"` lower-cases to the accepted `"info"`. -/
theorem log_level_mixed_case_rejected :
    isOkB (mkApplicationConfig { log_level := some "Info" } envEmpty) = false ∧
    isOkB (mkApplicationConfig { log_level := some "INFO" } envEmpty) = true ∧
    pyLower "Info" = "info" := by
  decide

/-- C3 amended: `ApplicationConfig` construction (environment and
log-level supplied as overrides, empty process environment) succeeds iff
the `or`-defaulted, lower-cased environment is `"development"` or
`"production"` and the log level is literally one of the ten strings
`CRITICAL/ERROR/WARNING/INFO/DEBUG` in all-upper or all-lower form
(mixed casings are rejected); in particular `environment="invalid"` and
`log_level="INVALID"` raise. -/
theorem application_config_validation_iff (e l : Option String) :
    isOkB (mkApplicationConfig { environment := e, log_level := l } envEmpty) = true ↔
      ((pyLower (pyOr e "development") = "development" ∨
        pyLower (pyOr e "development") = "production")
       ∧ (l.getD "INFO") ∈ allowedLogLevels) := by
  unfold mkApplicationConfig validate_environment validate_log_level resolveParsed resolve envEmpty
  by_cases h1 : (pyLower (pyOr e "development") = "development" ∨
      pyLower (pyOr e "development") = "production") <;>
    by_cases h2 : (l.getD "INFO") ∈ allowedLogLevels <;>
      simp [h1, h2, isOkB, Except.bind, Bind.bind, Except.instMonad, Except.pure, Pure.pure]

/-- C4: in every constructed `AWSConfig` the three resource names carry
the `{environment}-` prefix, the prefixing validator is idempotent, an
already-prefixed value passes through unchanged, and
`AWSConfig(environment="production")` has `eventbridge_bus_name` starting
with `"production-"`. -/
theorem resource_name_prefix_invariant :
    (∀ (ov : AWSOverrides) (env : ProcEnv),
       pyStartsWith (mkAWSConfig ov env).eventbridge_bus_name
         ((mkAWSConfig ov env).environment ++ "-") = true
     ∧ pyStartsWith (mkAWSConfig ov env).dynamodb_table_name
         ((mkAWSConfig ov env).environment ++ "-") = true
     ∧ pyStartsWith (mkAWSConfig ov env).opensearch_index
         ((mkAWSConfig ov env).environment ++ "-") = true)
  ∧ (∀ e v, add_environment_prefix e ( add_environment_prefix e v) =
       add_environment_prefix e v)
  ∧ (∀ e v, pyStartsWith v (e ++ "-") = true → add_environment_prefix e v = v)
  ∧ pyStartsWith (mkAWSConfig { environment := some "production" } envEmpty).eventbridge_bus_name
      "production-" = true := by
  refine ⟨?_, ?_, ?_, by decide⟩
  · intro ov env
    exact ⟨ add_environment_prefix_startsWith _ _, add_environment_prefix_startsWith _ _,
      add_environment_prefix_startsWith _ _⟩
  · intro e v
    cases hsw : pyStartsWith v (e ++ "-") <;>
      simp [ add_environment_prefix, hsw, pyStartsWith_append]
  · intro e v h
    simp [ add_environment_prefix, h]

/-- Witness for C4's conditional conjunct at a concrete already-prefixed
input. -/
theorem resource_name_prefix_invariant_witness :
    add_environment_prefix "production" "production-bus" = "production-bus" :=
  resource_name_prefix_invariant.2.2.1 "production" "production-bus" (by decide)

/-- C5 counterexample: the claim says constructing a subtype with a
mismatched `event_type` either fails or has the supplied value overridden
by the fixed tag; in the source the tag is only a `Field(default=...)`,
so `ReviewSubmittedEvent(event_type=EventType.PAGE_VIEW, ...)` succeeds
and keeps the mismatched tag. -/
theorem event_type_mismatch_retained :
    (mkReviewSubmittedEvent
        { event_id := 0, event_type := some .page_view, timestamp := 0,
          source := "test.api", review_id := "rev_123", product_id := "prod_123",
          product_name := "Wireless Headphones", rating := 5, content := "great",
          reviewer_name := "John Doe", review_source := "product_page" }).event_type =
      EventType.page_view
  ∧ EventType.page_view ≠ EventType.review_submitted := by
  decide

/-- C5 amended: each concrete subtype only **defaults** `event_type` to
its fixed variant tag when the field is omitted; a supplied member of the
enumeration is validated and stored as given, so a mismatched tag is
accepted and retained (shown for the three analytics subtypes and the
payment subtype). -/
theorem event_type_default_only :
    (∀ f : ReviewFields,
       (f.event_type = none →
          (mkReviewSubmittedEvent f).event_type = EventType.review_submitted)
     ∧ (∀ t, f.event_type = some t → (mkReviewSubmittedEvent f).event_type = t))
  ∧ (∀ f : SessionFields,
       (f.event_type = none →
          (mkUserSessionEvent f).event_type = EventType.user_session)
     ∧ (∀ t, f.event_type = some t → (mkUserSessionEvent f).event_type = t))
  ∧ (∀ f : PageViewFields,
       (f.event_type = none →
          (mkPageViewEvent f).event_type = EventType.page_view)
     ∧ (∀ t, f.event_type = some t → (mkPageViewEvent f).event_type = t))
  ∧ (∀ f : PaymentFields,
       (f.event_type = none →
          (mkPaymentProcessedEvent f).event_type = EventType.payment_processed)
     ∧ (∀ t, f.event_type = some t → (mkPaymentProcessedEvent f).event_type = t)) := by
  refine ⟨fun f => ⟨fun h => ?_, fun t h => ?_⟩, fun f => ⟨fun h => ?_, fun t h => ?_⟩,
    fun f => ⟨fun h => ?_, fun t h => ?_⟩, fun f => ⟨fun h => ?_, fun t h => ?_⟩⟩ <;>
    simp [mkReviewSubmittedEvent, mkUserSessionEvent, mkPageViewEvent,
      mkPaymentProcessedEvent, h]

/-- Witness for C5's amended statement: each subtype's tag appears when
`event_type` is omitted, and a supplied different member is retained. -/
theorem event_type_default_only_witness :
    (mkReviewSubmittedEvent
      { event_id := 0, timestamp := 0, source := "s",
        review_id := "r", product_id := "p", product_name := "n", rating := 5,
        content := "c", reviewer_name := "j", review_source := "rs" }).event_type =
      EventType.review_submitted
  ∧ (mkUserSessionEvent
      { event_id := 0, timestamp := 0, source := "s",
        session_id := "x", session_start := 0, user_agent := "ua",
        ip_address := "ip", device_type := "d", browser := "b",
        operating_system := "os" }).event_type = EventType.user_session
  ∧ (mkPageViewEvent
      { event_id := 0, timestamp := 0, source := "s",
        page_url := "u", page_title := "t", page_category := "c",
        content_type := "ct", session_id := "sid", page_sequence := 1 }).event_type =
      EventType.page_view
  ∧ (mkPaymentProcessedEvent
      { event_id := 0, timestamp := 0, source := "s",
        payment_id := "p", payment_amount := ⟨9999, 2⟩, processor := "stripe",
        event_type := some .order_paid }).event_type = EventType.order_paid :=
  ⟨(event_type_default_only.1 _).1 rfl,
   (event_type_default_only.2.1 _).1 rfl,
   (event_type_default_only.2.2.1 _).1 rfl,
   (event_type_default_only.2.2.2 _).2 _ rfl⟩

/-- C6: `AWSConfig` construction never raises (all its validators are
total): the environment override is lower-cased and kept when it
normalizes to `"development"` or `"production"` and coerced to
`"development"` otherwise, the constructed environment always lies in
that two-element set, and a blank or absent region is coerced to
`"us-east-1"` while a non-blank override passes through. -/
theorem aws_config_never_raises_coercions :
    (∀ (ov : AWSOverrides) (env : ProcEnv),
       (mkAWSConfig ov env).environment = "development" ∨
       (mkAWSConfig ov env).environment = "production")
  ∧ (∀ (ov : AWSOverrides) (env : ProcEnv) (s : String), ov.environment = some s →
       (mkAWSConfig ov env).environment =
         (if pyLower s = "development" ∨ pyLower s = "production" then pyLower s
          else "development"))
  ∧ (∀ (ov : AWSOverrides) (env : ProcEnv), ov.environment = none →
       env "ENVIRONMENT" = none → (mkAWSConfig ov env).environment = "development")
  ∧ (∀ (ov : AWSOverrides) (env : ProcEnv), ov.region = some "" →
       (mkAWSConfig ov env).region = "us-east-1")
  ∧ (∀ (ov : AWSOverrides) (env : ProcEnv), ov.region = none →
       env "AWS_REGION" = none → (mkAWSConfig ov env).region = "us-east-1")
  ∧ (∀ (ov : AWSOverrides) (env : ProcEnv) (s : String), ov.region = some s →
       s ≠ "" → (mkAWSConfig ov env).region = s) := by
  refine ⟨fun ov env => norm_env_mem _, ?_, ?_, ?_, ?_, ?_⟩
  · intro ov env s h
    have hmk : (mkAWSConfig ov env).environment =
        normalize_environment (resolve ov.environment env "ENVIRONMENT") := rfl
    rw [hmk]
    unfold resolve
    rw [h]
    unfold normalize_environment pyOr
    by_cases hs : s = ""
    · subst hs
      simp only [Option.some_orElse]
      decide
    · simp only [Option.some_orElse]
      rw [if_neg hs]
  · intro ov env h1 h2
    have hmk : (mkAWSConfig ov env).environment =
        normalize_environment (resolve ov.environment env "ENVIRONMENT") := rfl
    rw [hmk]
    unfold resolve
    rw [h1, h2]
    decide
  · intro ov env h
    have hmk : (mkAWSConfig ov env).region =
        coalesce_region (resolve ov.region env "AWS_REGION") := rfl
    rw [hmk]
    unfold resolve
    rw [h]
    simp only [Option.some_orElse]
    decide
  · intro ov env h1 h2
    have hmk : (mkAWSConfig ov env).region =
        coalesce_region (resolve ov.region env "AWS_REGION") := rfl
    rw [hmk]
    unfold resolve
    rw [h1, h2]
    decide
  · intro ov env s h hs
    have hmk : (mkAWSConfig ov env).region =
        coalesce_region (resolve ov.region env "AWS_REGION") := rfl
    rw [hmk]
    unfold resolve
    rw [h]
    unfold coalesce_region pyOr
    simp only [Option.some_orElse]
    rw [if_neg hs]

/-- Witness for C6 at concrete inputs: an unrecognized environment
coerces per the formula, absence gives the defaults, and blank, absent
and explicit regions behave as stated. -/
theorem aws_config_never_raises_coercions_witness :
    (mkAWSConfig { environment := some "Staging" } envEmpty).environment =
      (if pyLower "Staging" = "development" ∨ pyLower "Staging" = "production"
       then pyLower "Staging" else "development")
  ∧ (mkAWSConfig {} envEmpty).environment = "development"
  ∧ (mkAWSConfig { region := some "" } envEmpty).region = "us-east-1"
  ∧ (mkAWSConfig {} envEmpty).region = "us-east-1"
  ∧ (mkAWSConfig { region := some "eu-west-1" } envEmpty).region = "eu-west-1" :=
  ⟨aws_config_never_raises_coercions.2.1 _ _ _ rfl,
   aws_config_never_raises_coercions.2.2.1 _ _ rfl rfl,
   aws_config_never_raises_coercions.2.2.2.1 _ _ rfl,
   aws_config_never_raises_coercions.2.2.2.2.1 _ _ rfl rfl,
   aws_config_never_raises_coercions.2.2.2.2.2 _ _ _ rfl (by decide)⟩

/-- C7: `get_account_id` selects the production account id exactly when
the environment is `"production"` and the development one otherwise; both
role-ARN getters format `arn:aws:iam::{account_id}:role/{role_name}` when
a non-blank account id is configured and return `None` when none is —
never fabricating a placeholder id. -/
theorem account_id_and_role_arn_derivation (c : AWSConfig) :
    (c.environment = "production" → c.get_account_id = c.prod_account_id)
  ∧ (c.environment ≠ "production" → c.get_account_id = c.dev_account_id)
  ∧ (∀ a, c.get_account_id = some a → a ≠ "" →
       c.get_deployment_role_arn = some (build_role_arn a c.deployment_role_name)
     ∧ c.get_execution_role_arn = some (build_role_arn a c.execution_role_name))
  ∧ (c.get_account_id = none →
       c.get_deployment_role_arn = none ∧ c.get_execution_role_arn = none) := by
  refine ⟨fun h => by simp [AWSConfig.get_account_id, h],
    fun h => by simp [AWSConfig.get_account_id, h], ?_, ?_⟩
  · intro a ha hne
    constructor <;>
      simp [AWSConfig.get_deployment_role_arn, AWSConfig.get_execution_role_arn,
        ha, hne, build_role_arn]
  · intro h
    constructor <;>
      simp [AWSConfig.get_deployment_role_arn, AWSConfig.get_execution_role_arn, h]

/-- Witness for C7 on a production config with an account id and on a
default config with none. -/
theorem account_id_and_role_arn_derivation_witness :
    (mkAWSConfig
      { environment := some "production",
        prod_account_id := some "987654321098" } envEmpty).get_account_id =
      (mkAWSConfig
        { environment := some "production",
          prod_account_id := some "987654321098" } envEmpty).prod_account_id
  ∧ (mkAWSConfig
      { environment := some "production",
        prod_account_id := some "987654321098" } envEmpty).get_deployment_role_arn =
      some (build_role_arn "987654321098"
        (mkAWSConfig
          { environment := some "production",
            prod_account_id := some "987654321098" } envEmpty).deployment_role_name)
  ∧ (mkAWSConfig {} envEmpty).get_account_id = (mkAWSConfig {} envEmpty).dev_account_id
  ∧ (mkAWSConfig {} envEmpty).get_deployment_role_arn = none :=
  ⟨(account_id_and_role_arn_derivation _).1 (by decide),
   ((account_id_and_role_arn_derivation _).2.2.1 "987654321098" (by decide) (by decide)).1,
   (account_id_and_role_arn_derivation _).2.1 (by decide),
   ((account_id_and_role_arn_derivation _).2.2.2 (by decide)).1⟩

/-- C8: currency amounts are carried as exact decimals end-to-end:
integer input converts to an equal decimal, a binary float of exact value
`m·2^e` converts to a decimal of exactly that value (binary floats always
have exact decimal expansions), construction stores the supplied decimal
verbatim, and the serialization round trip returns it unchanged — no
rounding drift anywhere. -/
theorem decimal_currency_exactness :
    (∀ n : Int, (Dec.ofInt n).toRat = (n : Rat))
  ∧ (∀ (m e : Int), (Dec.ofFloat m e).toRat = (m : Rat) * (2 : Rat) ^ e)
  ∧ (∀ f : PaymentFields, (mkPaymentProcessedEvent f).payment_amount = f.payment_amount)
  ∧ (∀ f : PaymentFields,
       (PaymentProcessedEvent.from_dict
          (PaymentProcessedEvent.to_dict (mkPaymentProcessedEvent f))).map
         (fun e => e.payment_amount) = some f.payment_amount) := by
  refine ⟨?_, ?_, fun f => rfl, ?_⟩
  · intro n
    simp [Dec.toRat, Dec.ofInt]
  · intro m e
    cases e with
    | ofNat k =>
        simp only [Dec.ofFloat, Dec.toRat, Int.ofNat_eq_coe, zpow_natCast,
          pow_zero, div_one]
        push_cast
        ring
    | negSucc k =>
        simp only [Dec.ofFloat, Dec.toRat, zpow_negSucc]
        have h10 : (10 : Rat) ^ (k + 1) = 2 ^ (k + 1) * 5 ^ (k + 1) := by
          rw [← mul_pow]; norm_num
        push_cast
        rw [h10]
        have h2 : (2 : Rat) ^ (k + 1) ≠ 0 := by positivity
        have h5 : (5 : Rat) ^ (k + 1) ≠ 0 := by positivity
        field_simp
        ring
  · intro f
    rw [payment_round_trip]
    rfl

/-- C9: the spec-modelled free function `normalize_env` maps `None`, the
empty string, `"development"` and `"dev"` to the `"dev"` short code and
`"production"` and `"prod"` to the `"prod"` short code. -/
theorem normalize_env_mapping :
    normalize_env none = "dev" ∧ normalize_env (some "") = "dev"
  ∧ normalize_env (some "development") = "dev" ∧ normalize_env (some "dev") = "dev"
  ∧ normalize_env (some "production") = "prod"
  ∧ normalize_env (some "prod") = "prod" := by
  decide

/-- C10: the prefixing validator is idempotent only relative to the
current environment's own prefix — a value not starting with
`{environment}-` is prefixed again even if it carries another
environment's prefix, so `AWSConfig(environment="production",
eventbridge_bus_name="development-bus")` yields
`"production-development-bus"`. -/
theorem prefix_relative_to_current_environment :
    (∀ e v, pyStartsWith v (e ++ "-") = false →
       add_environment_prefix e v = e ++ "-" ++ v)
  ∧ (mkAWSConfig
      { environment := some "production",
        eventbridge_bus_name := some "development-bus" } envEmpty).eventbridge_bus_name =
      "production-development-bus" := by
  refine ⟨?_, by decide⟩
  intro e v h
  simp [ add_environment_prefix, h]

/-- Witness for C10's conditional conjunct at the claim's example input. -/
theorem prefix_relative_to_current_environment_witness :
    add_environment_prefix "production" "development-bus" =
      "production" ++ "-" ++ "development-bus" :=
  prefix_relative_to_current_environment.1 "production" "development-bus" (by decide)

end EventBridgeLogShared
